import Mathlib

/-!
Verification of the airship-rust HTTP resource framework: a shallow embedding
of the routing trie (src/route.rs), the per-request state (src/types.rs) and
the Webmachine decision graph (src/decision.rs), with theorems settling the
specification claims about them.

Conventions of the embedding:
* machine strings are Lean `String`s; byte comparisons are `Char` comparisons;
* `hyper` timestamps (`HttpDate`, `SystemTime`) are `Nat`, ordered as the code
  only ever compares them;
* a `Mime` is its essence `type_/subtype` (the code never consults
  parameters in the negotiation routines modelled here);
* fallible extraction (`Option::unwrap`) is modelled by an explicit
  `panicked` outcome;
* resource callbacks are modelled per §4.5 of the spec as values fixed for
  the traversal (pure query-style callbacks).
-/

namespace Airship

/-! ## String helpers

`joinComma` models Rust's `Vec::join(",")` / `itertools::intersperse(",")`
followed by `concat`; `splitOnChar` models `str::split(c)`. -/

def joinComma : List String → String
  | [] => ""
  | [s] => s
  | s :: rest => s ++ "," ++ joinComma rest

/-- Splitting a character list at a separator, mirroring Rust's
`str::split` (so the empty input yields one empty piece). -/
def splitOnCharList (sep : Char) : List Char → List (List Char)
  | [] => [[]]
  | c :: cs =>
    if c = sep then [] :: splitOnCharList sep cs
    else
      match splitOnCharList sep cs with
      | [] => [[c]]
      | w :: ws => (c :: w) :: ws

def splitOnChar (sep : Char) (s : String) : List String :=
  (splitOnCharList sep s.data).map fun l => ⟨l⟩

/-- The entries of a comma-joined header value. -/
def splitCommaChars (l : List Char) : List (List Char) :=
  splitOnCharList ',' l

def dropWhileStr (p : Char → Bool) (s : String) : String :=
  ⟨s.data.dropWhile p⟩

def takeWhileStr (p : Char → Bool) (s : String) : String :=
  ⟨s.data.takeWhile p⟩

def isPrefixChars : List Char → List Char → Bool
  | [], _ => true
  | _ :: _, [] => false
  | a :: as, b :: bs => a = b && isPrefixChars as bs

/-- String prefix test (`str::starts_with` / the trie's key-prefix test). -/
def strIsPrefixOf (a b : String) : Bool := isPrefixChars a.data b.data

/-! ## Base64 (the `base64::encode` used by the router for `var` keys) -/

def base64Alphabet : List Char :=
  "ABCDEFGHIJKLMNOPQRSTUVWXYZabcdefghijklmnopqrstuvwxyz0123456789+/".data

def b64Char (n : Nat) : Char := base64Alphabet.getD n 'A'

def base64EncodeChunks : List Nat → List Char
  | [] => []
  | [b1] => [b64Char (b1 / 4), b64Char (b1 % 4 * 16), '=', '=']
  | [b1, b2] =>
    [b64Char (b1 / 4), b64Char (b1 % 4 * 16 + b2 / 16), b64Char (b2 % 16 * 4), '=']
  | b1 :: b2 :: b3 :: rest =>
    b64Char (b1 / 4) :: b64Char (b1 % 4 * 16 + b2 / 16) ::
      b64Char (b2 % 16 * 4 + b3 / 64) :: b64Char (b3 % 64) ::
      base64EncodeChunks rest

def base64Encode (s : String) : String :=
  ⟨base64EncodeChunks (s.data.map Char.toNat)⟩

/-! ## Router (src/route.rs)

The routing trie `Trie<String, RouteLeaf>` is modelled as an association
list with unique keys; the resource payload (`RoutedResource`) is an opaque
type parameter. -/

inductive RouteLeaf (α : Type) where
  | RouteMatch (res : α) (vars : List String)
  | RVar
  | RouteMatchOrVar (res : α) (vars : List String)
  | Wildcard (res : α)
deriving DecidableEq

/-- `merge_values` from src/route.rs, arms in source order (first match wins,
as in Rust). `l1` is the value already in the trie, `l2` the value being
inserted (see `insert_or_replace`). -/
def merge_values {α : Type} : RouteLeaf α → RouteLeaf α → RouteLeaf α
  | .Wildcard x, _ => .Wildcard x
  | _, .Wildcard y => .Wildcard y
  | .RVar, .RVar => .RVar
  | .RVar, .RouteMatch x y => .RouteMatchOrVar x y
  | .RouteMatch _ _, .RouteMatch x y => .RouteMatch x y
  | .RouteMatch x y, .RVar => .RouteMatchOrVar x y
  | .RouteMatchOrVar _ _, .RouteMatch x y => .RouteMatchOrVar x y
  | .RouteMatchOrVar x y, _ => .RouteMatchOrVar x y
  | _, v => v

abbrev RouteTrie (α : Type) : Type := List (String × RouteLeaf α)

def lookupKey {α : Type} (t : RouteTrie α) (k : String) : Option (RouteLeaf α) :=
  (t.find? fun p => p.1 == k).map fun p => p.2

def removeKey {α : Type} (t : RouteTrie α) (k : String) : RouteTrie α :=
  t.filter fun p => !(p.1 == k)

/-- `insert_or_replace` from src/route.rs: on a key collision the existing
value and the new value are merged with `merge_values(current, new)`. -/
def insert_or_replace {α : Type} (t : RouteTrie α) (kv : String × RouteLeaf α) :
    RouteTrie α :=
  match lookupKey t kv.1 with
  | some cur => removeKey t kv.1 ++ [(kv.1, merge_values cur kv.2)]
  | none => t ++ [kv]

def to_trie {α : Type} (leaves : List (String × RouteLeaf α)) : RouteTrie α :=
  leaves.foldl insert_or_replace []

/-- The radix trie's `prefix_match`: the longest stored key that is a prefix
of the query, together with its value and the unmatched remainder of the
query. -/
def prefixMatch {α : Type} (t : RouteTrie α) (q : String) :
    Option (String × RouteLeaf α × String) :=
  t.foldl
    (fun acc kv =>
      if strIsPrefixOf kv.1 q then
        match acc with
        | none => some (kv.1, kv.2, ⟨q.data.drop kv.1.data.length⟩)
        | some (k', v', r') =>
          if kv.1.data.length > k'.data.length then
            some (kv.1, kv.2, ⟨q.data.drop kv.1.data.length⟩)
          else some (k', v', r')
      else acc)
    none

/-- `dispatch_list` from src/route.rs. -/
def dispatch_list (dispatch : Option String) (matched : String) : List String :=
  let upd := match dispatch with
    | some path => path ++ matched
    | none => ""
  splitOnChar '/' upd

/-- `match_route` from src/route.rs, arms in source order.  The Rust
function recurses on a freshly computed prefix match; the recursion is not
structurally decreasing, so the embedding uses explicit fuel. -/
def match_route {α : Type} (fuel : Nat) (routes : RouteTrie α)
    (matched : Option (String × RouteLeaf α × String)) (params : List String)
    (dispatch : Option String) :
    Option (α × (List (String × String) × List String)) :=
  match fuel, matched with
  | _, none => none
  | _, some (mp, .RouteMatchOrVar r vars, rest) =>
    if rest.data.isEmpty then
      some (r, (vars.zip params, dispatch_list dispatch mp))
    else none
  | _, some (mp, .RouteMatch r vars, rest) =>
    if rest.data.isEmpty then
      some (r, (vars.zip params, dispatch_list dispatch mp))
    else none
  | fuel + 1, some (mp, .RVar, rest) =>
    if rest.data.isEmpty then none
    else if strIsPrefixOf "//" rest then none
    else if strIsPrefixOf "/" rest then
      let encoded := base64Encode (mp ++ "var")
      let nextKey := encoded ++ dropWhileStr (fun c => c ≠ '/')
        (dropWhileStr (fun c => c = '/') rest)
      let updDispatch := match dispatch with
        | some d => some d
        | none => some ""
      let paramVal := takeWhileStr (fun c => c ≠ '/')
        (dropWhileStr (fun c => c = '/') rest)
      match_route fuel routes (prefixMatch routes nextKey)
        (params ++ [paramVal]) updDispatch
    else none
  | 0, some (_, .RVar, _) => none
  | _, some (_, .Wildcard r, rest) =>
    some (r, ([], [dropWhileStr (fun c => c = '/') rest]))

/-- `route` from src/route.rs: look a path up in the routing trie. -/
def route {α : Type} (fuel : Nat) (routes : RouteTrie α) (pathInfo : String) :
    Option (α × (List (String × String) × List String)) :=
  match_route fuel routes (prefixMatch routes pathInfo) [] none

/-! ## Request and resource data model (hyper types and src/resource.rs) -/

inductive Method where
  | GET | POST | HEAD | PUT | DELETE | TRACE | CONNECT | OPTIONS | PATCH
  | Extension (s : String)
deriving DecidableEq

/-- A media type: its essence `type_/subtype`. -/
structure Mime where
  type_ : String
  subtype : String
deriving DecidableEq

/-- An `Accept` header item: a media range with a quality value
(hyper's `q` scale, 0..1000). -/
structure QualityItem where
  item : Mime
  quality : Nat
deriving DecidableEq

/-- `IfMatch` / `IfNoneMatch`: either `*` or a list of entity tags. -/
inductive EtagMatch where
  | Any
  | Items (etags : List String)
deriving DecidableEq

/-- The request fields the decision graph consumes.  Headers the code reads
with `headers().get::<H>()` are `Option`s. -/
structure Request where
  method : Method := .GET
  path : String := "/"
  accept : Option (List QualityItem) := none
  acceptLanguage : Option String := none
  acceptCharset : Option String := none
  acceptEncoding : Option String := none
  contentType : Option Mime := none
  ifMatch : Option EtagMatch := none
  ifNoneMatch : Option EtagMatch := none
  ifModifiedSince : Option Nat := none
  ifUnmodifiedSince : Option Nat := none
  location : Option String := none

/-- A response body (`hyper::Body`), as the byte string it carries. -/
abbrev Body := String

/-- `PostResponse` from src/resource.rs. -/
inductive PostResponse where
  | PostCreate (segments : List String)
  | PostCreateRedirect (segments : List String)
  | PostProcess (accepted : List (Mime × Unit))
  | PostProcessRedirect (accepted : List (Mime × (Request → String)))

/-- The `Webmachine` callback surface (src/resource.rs), with the default
values the trait supplies.  Per §4.5 of the spec the callbacks are
query-style; they are modelled as the values they return for the request
being traversed. -/
structure Resource where
  serviceAvailable : Bool := true
  uriTooLong : Bool := false
  allowedMethods : List Method := [.GET, .HEAD, .OPTIONS]
  malformedRequest : Bool := false
  isAuthorized : Bool := true
  forbidden : Bool := false
  validContentHeaders : Bool := true
  knownContentType : Bool := true
  entityTooLarge : Bool := false
  languageAvailable : String → Bool := fun _ => true
  contentTypesProvided : List (Mime × (Request → Body)) :=
    [(⟨"text", "plain"⟩, fun _ => "")]
  contentTypesAccepted : List (Mime × Unit) := []
  patchContentTypesAccepted : List (Mime × Unit) := []
  resourceExists : Bool := true
  lastModified : Option Nat := none
  movedPermanently : Option String := none
  movedTemporarily : Option String := none
  previouslyExisted : Bool := false
  allowMissingPost : Bool := false
  deleteResource : Bool := false
  deleteCompleted : Bool := false
  processPost : PostResponse := .PostProcess []
  isConflict : Bool := false
  multipleChoices : Bool := false
  generateEtag : Option String := none

/-! ## Response under construction and per-request state (src/types.rs) -/

/-- A `hyper::Response`: status plus the headers and body the engine sets.
`Response::new()` is the default value (a blank 200 with no body). -/
structure Resp where
  status : Nat := 200
  allow : Option (List Method) := none
  location : Option String := none
  contentType : Option Mime := none
  etag : Option String := none
  lastModified : Option Nat := none
  server : Option String := none
  airshipTrace : Option String := none
  airshipQuip : Option String := none
  body : Option Body := none

/-- `AirshipState` from src/types.rs (`error_responses` is unused by the
decision graph and omitted).  The default value is `AirshipState::new()`. -/
structure AirshipState where
  decisionTrace : List String := []
  matchedContentType : Option (Mime × (Request → Body)) := none
  response : Option Resp := some {}
  requestTime : Nat := 0

/-- `trace` from src/types.rs: push a node label. -/
def traceState (s : AirshipState) (t : String) : AirshipState :=
  { s with decisionTrace := s.decisionTrace ++ [t] }

/-- `set_response_header` for `Location`. -/
def setResponseLocation (s : AirshipState) (v : String) : AirshipState :=
  match s.response with
  | some r => { s with response := some { r with location := some v } }
  | none => s

/-- `set_response_header` for `ContentType`. -/
def setResponseContentType (s : AirshipState) (v : Mime) : AirshipState :=
  match s.response with
  | some r => { s with response := some { r with contentType := some v } }
  | none => s

/-- `set_response_header` for `ETag`. -/
def setResponseEtag (s : AirshipState) (v : String) : AirshipState :=
  match s.response with
  | some r => { s with response := some { r with etag := some v } }
  | none => s

/-- `set_response_header` for `LastModified`. -/
def setResponseLastModified (s : AirshipState) (v : Nat) : AirshipState :=
  match s.response with
  | some r => { s with response := some { r with lastModified := some v } }
  | none => s

/-- `set_response_body` from src/types.rs. -/
def setResponseBody (s : AirshipState) (b : Body) : AirshipState :=
  match s.response with
  | some r => { s with response := some { r with body := some b } }
  | none => s

/-- `is_response_empty` from src/types.rs: `false` when no response or no
body is present, otherwise whether the body is empty. -/
def is_response_empty (s : AirshipState) : Bool :=
  match s.response with
  | some r =>
    match r.body with
    | some b => b.isEmpty
    | none => false
  | none => false

/-- `get_response` from src/types.rs: `take()` the response under
construction (falling back to a fresh `Response::new()`). -/
def getResponse (s : AirshipState) : Resp × AirshipState :=
  (s.response.getD {}, { s with response := none })

/-! ## Halting helpers (src/decision.rs) -/

def serverId : String := "hyper/0.11.27"

def quipValue : String := "blame me if inappropriate"

/-- `halt`: a fresh response carrying the status code and the `Server`,
`Airship-Trace` (comma-joined trace) and `Airship-Quip` headers. -/
def haltResp (s : AirshipState) (code : Nat) : Resp :=
  { status := code, server := some serverId,
    airshipTrace := some (joinComma s.decisionTrace),
    airshipQuip := some quipValue }

/-- `halt_with_header` specialised to the only header the code passes,
`Allow`. -/
def haltAllowResp (s : AirshipState) (code : Nat) (methods : List Method) :
    Resp :=
  { status := code, allow := some methods, server := some serverId,
    airshipTrace := some (joinComma s.decisionTrace),
    airshipQuip := some quipValue }

/-- `halt_with_response`: decorate the response under construction (taken
out of the state) with the status code and the trailer headers. -/
def haltWithResponse (s : AirshipState) (code : Nat) : Resp × AirshipState :=
  let pair := getResponse s
  let resp := pair.1
  ({ resp with
      status := code,
      server := some serverId,
      airshipTrace := some (joinComma pair.2.decisionTrace),
      airshipQuip := some quipValue }, pair.2)

/-! ## Content negotiation (src/decision.rs helpers) -/

/-- `map_content_media`: first entry whose mime equals the request's
`Content-Type` wins. -/
def map_content_media {γ : Type} : List (Mime × γ) → Mime → Option γ
  | [], _ => none
  | (m, a) :: rest, ct =>
    if m = ct then some a else map_content_media rest ct

/-- Inner loop of `map_accept_media`: scan the provided list under one
Accept item, updating the best match and its quality. -/
def map_accept_media_inner (a : QualityItem) :
    List (Mime × (Request → Body)) →
    Option (Mime × (Request → Body)) × Nat →
    Option (Mime × (Request → Body)) × Nat
  | [], acc => acc
  | (ct, f) :: rest, (best, bq) =>
    if (a.item = ⟨"*", "*"⟩ ∧ a.quality > bq) ∨
        (a.item.type_ = ct.type_ ∧ a.quality > bq ∧
          (a.item.subtype = ct.subtype ∨ a.item.subtype = "*")) then
      map_accept_media_inner a rest (some (ct, f), a.quality)
    else
      map_accept_media_inner a rest (best, bq)

/-- Outer loop of `map_accept_media`: Accept items in declaration order,
breaking at the first item with quality 0. -/
def map_accept_media_aux :
    List QualityItem → List (Mime × (Request → Body)) →
    Option (Mime × (Request → Body)) × Nat →
    Option (Mime × (Request → Body))
  | [], _, (best, _) => best
  | a :: rest, provided, (best, bq) =>
    if a.quality = 0 then best
    else map_accept_media_aux rest provided
      (map_accept_media_inner a provided (best, bq))

/-- `map_accept_media` from src/decision.rs. -/
def map_accept_media (provided : List (Mime × (Request → Body)))
    (accept : List QualityItem) : Option (Mime × (Request → Body)) :=
  map_accept_media_aux accept provided (none, 0)

/-- `append_request_path` from src/decision.rs: the request path followed by
the comma-interspersed path segments. -/
def append_request_path (q : Request) (segments : List String) : String :=
  q.path ++ joinComma segments

/-! ## The decision graph as a step machine (src/decision.rs)

Each `Node` is one of the graph's functions; constructors carry the header
argument the Rust function receives.  One step mirrors one function body:
push the label, then branch. -/

inductive Node where
  | b13 | b12 | b11 | b10 | b09 | b08 | b07 | b06 | b05 | b04 | b03
  | c03
  | c04 (acceptHeader : List QualityItem)
  | d04
  | d05 (acceptLangHeader : String)
  | e05
  | e06 (acceptCharsetHeader : String)
  | f06
  | f07 (acceptEncodingHeader : String)
  | g07 | g08
  | g09 (ifMatchHeader : EtagMatch)
  | g11 (etags : List String)
  | h07 | h10 | h11 | h12
  | i04 | i07 | i12
  | i13 (ifNoneMatchHeader : EtagMatch)
  | j18
  | k05 | k07
  | k13 (etags : List String)
  | l05 | l07 | l13 | l14 | l15 | l17
  | m05 | m07 | m16 | m20
  | n05 | n11 | n16
  | o14 | o16 | o17 | o18 | o20
  | p03 | p11

def labelOf : Node → String
  | .b13 => "b13" | .b12 => "b12" | .b11 => "b11" | .b10 => "b10"
  | .b09 => "b09" | .b08 => "b08" | .b07 => "b07" | .b06 => "b06"
  | .b05 => "b05" | .b04 => "b04" | .b03 => "b03"
  | .c03 => "c03" | .c04 _ => "c04"
  | .d04 => "d04" | .d05 _ => "d05"
  | .e05 => "e05" | .e06 _ => "e06"
  | .f06 => "f06" | .f07 _ => "f07"
  | .g07 => "g07" | .g08 => "g08" | .g09 _ => "g09" | .g11 _ => "g11"
  | .h07 => "h07" | .h10 => "h10" | .h11 => "h11" | .h12 => "h12"
  | .i04 => "i04" | .i07 => "i07" | .i12 => "i12" | .i13 _ => "i13"
  | .j18 => "j18"
  | .k05 => "k05" | .k07 => "k07" | .k13 _ => "k13"
  | .l05 => "l05" | .l07 => "l07" | .l13 => "l13" | .l14 => "l14"
  | .l15 => "l15" | .l17 => "l17"
  | .m05 => "m05" | .m07 => "m07" | .m16 => "m16" | .m20 => "m20"
  | .n05 => "n05" | .n11 => "n11" | .n16 => "n16"
  | .o14 => "o14" | .o16 => "o16" | .o17 => "o17" | .o18 => "o18"
  | .o20 => "o20"
  | .p03 => "p03" | .p11 => "p11"

/-- The outcome of one node execution: transition, halt with a response, or
a Rust panic (the `unwrap` in `o18`). -/
inductive StepResult where
  | next (n : Node) (s : AirshipState)
  | done (resp : Resp) (s : AirshipState)
  | panicked (s : AirshipState)

/-- Halt via `halt`. -/
def haltSR (s : AirshipState) (code : Nat) : StepResult :=
  .done (haltResp s code) s

/-- Halt via `halt_with_header(_, Allow(..), _)`. -/
def haltAllowSR (s : AirshipState) (code : Nat) (methods : List Method) :
    StepResult :=
  .done (haltAllowResp s code methods) s

/-- Halt via `halt_with_response`. -/
def haltRespSR (s : AirshipState) (code : Nat) : StepResult :=
  .done (haltWithResponse s code).1 (haltWithResponse s code).2

/-- The `known_methods` list of `b12`. -/
def knownMethods : List Method :=
  [.GET, .POST, .HEAD, .PUT, .DELETE, .TRACE, .CONNECT, .OPTIONS, .PATCH]

/-- The content-type selection of `o18`:
`get_matched_content_type(state).take().unwrap_or_else(|| provided.first().unwrap())`,
with the failing `unwrap` surfaced as `none`. -/
def o18Select (matched : Option (Mime × (Request → Body)))
    (provided : List (Mime × (Request → Body))) :
    Option (Mime × (Request → Body)) :=
  match matched with
  | some ctf => some ctf
  | none => provided.head?

/-- The tail of `o18` after the GET/HEAD body handling: optional `ETag` and
`Last-Modified` headers, then `halt_with_response(200)`. -/
def o18Finish (r : Resource) (s : AirshipState) : StepResult :=
  let s1 := match r.generateEtag with
    | some e => setResponseEtag s e
    | none => s
  let s2 := match r.lastModified with
    | some lm => setResponseLastModified s1 lm
    | none => s1
  haltRespSR s2 200

/-- `create` from src/decision.rs: set the synthesized `Location` response
header, then negotiate `content_types_accepted` and run the matching
action. -/
def create (r : Resource) (q : Request) (s : AirshipState)
    (pathSegments : List String) : Option Unit × AirshipState :=
  let location := append_request_path q pathSegments
  let s1 := setResponseLocation s location
  match q.contentType.bind (map_content_media r.contentTypesAccepted) with
  | some _ => (some (), s1)
  | none => (none, s1)

/-- `process_post_action` from src/decision.rs. -/
def process_post_action (r : Resource) (q : Request) (s : AirshipState) :
    PostResponse → StepResult
  | .PostCreate segs =>
    match create r q s segs with
    | (some _, s1) => .next .p11 s1
    | (none, s1) => haltSR s1 415
  | .PostCreateRedirect segs =>
    match create r q s segs with
    | (some _, s1) => haltSR s1 303
    | (none, s1) => haltSR s1 415
  | .PostProcess accepted =>
    match q.contentType.bind (map_content_media accepted) with
    | some _ => .next .p11 s
    | none => haltSR s 415
  | .PostProcessRedirect accepted =>
    match q.contentType.bind (map_content_media accepted) with
    | some act =>
      let s1 := setResponseLocation s (act q)
      haltSR s1 303
    | none => haltSR s 415

/-- The body of each decision function after its `trace` call (the label has
already been pushed onto the state it receives). -/
def stepCore (r : Resource) (q : Request) : Node → AirshipState → StepResult
  | .b13, s =>
    if r.serviceAvailable then .next .b12 s else haltSR s 503
  | .b12, s =>
    if q.method ∈ knownMethods then .next .b11 s else haltSR s 501
  | .b11, s =>
    if r.uriTooLong then haltSR s 414 else .next .b10 s
  | .b10, s =>
    if q.method ∈ r.allowedMethods then .next .b09 s
    else haltAllowSR s 405 r.allowedMethods
  | .b09, s =>
    if r.malformedRequest then haltSR s 400 else .next .b08 s
  | .b08, s =>
    if r.isAuthorized then .next .b07 s else haltSR s 401
  | .b07, s =>
    if r.forbidden then haltSR s 403 else .next .b06 s
  | .b06, s =>
    if r.validContentHeaders then .next .b05 s else haltSR s 501
  | .b05, s =>
    if r.knownContentType then .next .b04 s else haltSR s 415
  | .b04, s =>
    if r.entityTooLarge then haltSR s 413 else .next .b03 s
  | .b03, s =>
    match q.method with
    | .OPTIONS => haltAllowSR s 204 r.allowedMethods
    | _ => .next .c03 s
  | .c03, s =>
    match q.accept with
    | some ahdr => .next (.c04 ahdr) s
    | none => .next .d04 s
  | .c04 ahdr, s =>
    let result := map_accept_media r.contentTypesProvided ahdr
    match result with
    | some _ => .next .d04 { s with matchedContentType := result }
    | none => haltSR s 406
  | .d04, s =>
    match q.acceptLanguage with
    | some alhdr => .next (.d05 alhdr) s
    | none => .next .e05 s
  | .d05 alhdr, s =>
    if r.languageAvailable alhdr then .next .e05 s else haltSR s 406
  | .e05, s =>
    match q.acceptCharset with
    | some achdr => .next (.e06 achdr) s
    | none => .next .f06 s
  | .e06 _, s => .next .f06 s
  | .f06, s =>
    match q.acceptEncoding with
    | some aehdr => .next (.f07 aehdr) s
    | none => .next .g07 s
  | .f07 _, s => .next .f06 s
  | .g07, s =>
    if r.resourceExists then .next .g08 s else .next .h07 s
  | .g08, s =>
    match q.ifMatch with
    | some imhdr => .next (.g09 imhdr) s
    | none => .next .h10 s
  | .g09 imhdr, s =>
    match imhdr with
    | .Any => .next .h10 s
    | .Items etags => .next (.g11 etags) s
  | .g11 etags, s =>
    if etags.isEmpty then haltSR s 412 else .next .h10 s
  | .h07, s =>
    match q.ifMatch with
    | some .Any => haltSR s 412
    | _ => .next .i07 s
  | .h10, s =>
    if q.ifUnmodifiedSince.isSome then .next .h11 s else .next .i12 s
  | .h11, s => .next .h12 s
  | .h12, s =>
    match q.ifUnmodifiedSince, r.lastModified with
    | some ius, some lm =>
      if lm > ius then haltSR s 412 else .next .i12 s
    | _, _ => .next .i12 s
  | .i04, s =>
    match r.movedPermanently with
    | some loc => haltSR (setResponseLocation s loc) 301
    | none => .next .p03 s
  | .i07, s =>
    match q.method with
    | .PUT => .next .i04 s
    | _ => .next .k07 s
  | .i12, s =>
    match q.ifNoneMatch with
    | some inmhdr => .next (.i13 inmhdr) s
    | none => .next .l13 s
  | .i13 inmhdr, s =>
    match inmhdr with
    | .Any => .next .j18 s
    | .Items etags => .next (.k13 etags) s
  | .j18, s =>
    match q.method with
    | .GET => haltSR s 304
    | .HEAD => haltSR s 304
    | _ => haltSR s 412
  | .k05, s =>
    match r.movedPermanently with
    | some loc => haltSR (setResponseLocation s loc) 301
    | none => .next .l05 s
  | .k07, s =>
    if r.previouslyExisted then .next .k05 s else .next .l07 s
  | .k13 etags, s =>
    if etags.isEmpty then .next .l13 s else .next .j18 s
  | .l05, s =>
    match r.movedTemporarily with
    | some loc => haltSR (setResponseLocation s loc) 307
    | none => .next .m05 s
  | .l07, s =>
    match q.method with
    | .POST => .next .m07 s
    | _ => haltSR s 404
  | .l13, s =>
    if q.ifModifiedSince.isSome then .next .l14 s else .next .m16 s
  | .l14, s => .next .l15 s
  | .l15, s =>
    match q.ifModifiedSince with
    | some ims =>
      if ims > s.requestTime then .next .m16 s else .next .l17 s
    | none => .next .l17 s
  | .l17, s =>
    match q.ifModifiedSince, r.lastModified with
    | some ims, some lm =>
      if ims > lm then .next .m16 s else haltSR s 304
    | _, _ => haltSR s 304
  | .m05, s =>
    match q.method with
    | .POST => .next .n05 s
    | _ => haltSR s 410
  | .m07, s =>
    if r.allowMissingPost then .next .n11 s else haltSR s 404
  | .m16, s =>
    match q.method with
    | .DELETE => .next .m20 s
    | _ => .next .n16 s
  | .m20, s =>
    match r.deleteResource, r.deleteCompleted with
    | true, true => .next .o20 s
    | true, false => haltSR s 202
    | _, _ => haltSR s 500
  | .n05, s =>
    if r.allowMissingPost then .next .n11 s else haltSR s 410
  | .n11, s => process_post_action r q s r.processPost
  | .n16, s =>
    match q.method with
    | .POST => .next .n11 s
    | _ => .next .o16 s
  | .o14, s =>
    if r.isConflict then haltSR s 409
    else
      match q.contentType.bind (map_content_media r.contentTypesAccepted) with
      | some _ => .next .p11 s
      | none => haltSR s 415
  | .o16, s =>
    match q.method with
    | .PUT => .next .o14 s
    | _ => .next .o17 s
  | .o17, s =>
    match q.method with
    | .PATCH =>
      match q.contentType.bind
          (map_content_media r.patchContentTypesAccepted) with
      | some _ => .next .o20 s
      | none => haltSR s 415
    | _ => .next .o18 s
  | .o18, s =>
    if r.multipleChoices then haltSR s 300
    else
      match q.method with
      | .GET =>
        let m := s.matchedContentType
        let s1 := { s with matchedContentType := none }
        match o18Select m r.contentTypesProvided with
        | some ctf =>
          o18Finish r (setResponseBody (setResponseContentType s1 ctf.1)
            (ctf.2 q))
        | none => .panicked s1
      | .HEAD =>
        let m := s.matchedContentType
        let s1 := { s with matchedContentType := none }
        match o18Select m r.contentTypesProvided with
        | some ctf =>
          o18Finish r (setResponseBody (setResponseContentType s1 ctf.1)
            (ctf.2 q))
        | none => .panicked s1
      | _ => o18Finish r s
  | .o20, s =>
    if is_response_empty s then haltSR s 201 else .next .o18 s
  | .p03, s =>
    if r.isConflict then haltSR s 409
    else
      match q.contentType.bind (map_content_media r.contentTypesAccepted) with
      | some _ => .next .p11 s
      | none => haltSR s 415
  | .p11, s =>
    if q.location.isSome then haltSR s 201 else .next .o20 s

/-- One node execution: push the node's label (the `trace` call every
function begins with), then run the function body. -/
def step (r : Resource) (q : Request) (n : Node) (s : AirshipState) :
    StepResult :=
  stepCore r q n (traceState s (labelOf n))

/-- The observable outcome of a terminating traversal. -/
inductive Outcome where
  | response (haltLabel : String) (resp : Resp)
  | panicked

/-- Fuel-indexed driver of the decision graph, instrumented with the list of
node labels executed (in execution order).  `none` means the fuel ran out
before the traversal terminated. -/
def runV (r : Resource) (q : Request) :
    Nat → Node → AirshipState → Option (List String × Outcome × AirshipState)
  | 0, _, _ => none
  | fuel + 1, n, s =>
    match step r q n s with
    | .next n' s' =>
      (runV r q fuel n' s').map fun out => (labelOf n :: out.1, out.2.1, out.2.2)
    | .done resp sF => some ([labelOf n], .response (labelOf n) resp, sF)
    | .panicked sF => some ([labelOf n], .panicked, sF)

/-- `traverse` from src/decision.rs starts the machine at `b13`. -/
def traverse (r : Resource) (q : Request) (fuel : Nat) (s : AirshipState) :
    Option (List String × Outcome × AirshipState) :=
  runV r q fuel .b13 s

/-! ## The Accept matcher as §4.3 of the spec words it

These definitions follow the specification text, to be compared with
`map_accept_media` (which follows the code). -/

/-- The spec's candidate test for a provided mime under one Accept item:
`(accept.type == "*" && accept.subtype == "*")` or
`(accept.type == provided.type && (accept.subtype == provided.subtype ||
accept.subtype == "*"))`, and `accept.quality > best_quality`. -/
def acceptCandidate (a : QualityItem) (p : Mime) (bestQuality : Nat) : Prop :=
  ((a.item.type_ = "*" ∧ a.item.subtype = "*") ∨
    (a.item.type_ = p.type_ ∧
      (a.item.subtype = p.subtype ∨ a.item.subtype = "*"))) ∧
  a.quality > bestQuality

instance (a : QualityItem) (p : Mime) (bq : Nat) :
    Decidable (acceptCandidate a p bq) := by
  unfold acceptCandidate
  infer_instance

/-- Spec §4.3 step 3: fold one Accept item over the provided entries,
updating `(best, best_quality)` at every candidate. -/
def specScanProvided (a : QualityItem)
    (provided : List (Mime × (Request → Body)))
    (st : Option (Mime × (Request → Body)) × Nat) :
    Option (Mime × (Request → Body)) × Nat :=
  provided.foldl
    (fun acc pf =>
      if acceptCandidate a pf.1 acc.2 then (some pf, a.quality) else acc)
    st

/-- Spec §4.3 step 2: Accept items in declaration order, stopping at the
first item with quality 0. -/
def specAcceptSelectAux :
    List QualityItem → List (Mime × (Request → Body)) →
    Option (Mime × (Request → Body)) × Nat →
    Option (Mime × (Request → Body))
  | [], _, st => st.1
  | a :: rest, provided, st =>
    if a.quality = 0 then st.1
    else specAcceptSelectAux rest provided (specScanProvided a provided st)

/-- The Accept-to-provided matcher exactly as the spec describes it. -/
def specAcceptSelect (provided : List (Mime × (Request → Body)))
    (accept : List QualityItem) : Option (Mime × (Request → Body)) :=
  specAcceptSelectAux accept provided (none, 0)

/-! ## Predicates used by the claims about the machine -/

/-- Did this node execution hit a Rust panic? -/
def isPanicked : StepResult → Prop
  | .panicked _ => True
  | _ => False

/-- What a single node execution guarantees about the decision trace: the
label was already pushed by `trace`, the body leaves the trace alone, and a
halt stamps the comma-joined trace into the response. -/
def stepTraceOK : StepResult → List String → Prop
  | .next _ s', t => s'.decisionTrace = t
  | .done resp sF, t =>
    sF.decisionTrace = t ∧ resp.airshipTrace = some (joinComma t)
  | .panicked sF, t => sF.decisionTrace = t

/-- The run invariant: a terminating run starting with trace `t0` visits a
nonempty list of comma-free labels, appends exactly them to the trace, and
(when a response is produced) the halting node is the last visited and the
response's trace header is the comma-join of the final trace. -/
def traceInvariant :
    Option (List String × Outcome × AirshipState) → List String → Prop
  | none, _ => True
  | some (visited, o, sF), t0 =>
    sF.decisionTrace = t0 ++ visited ∧ visited ≠ [] ∧
    (∀ l ∈ visited, ',' ∉ l.data) ∧
    match o with
    | .response haltLbl resp =>
      visited.getLast? = some haltLbl ∧
      resp.airshipTrace = some (joinComma (t0 ++ visited))
    | .panicked => True

/-- Claim C7's property of a traversal started on an empty trace: the final
trace lists exactly the visited labels in order, a response is produced by
exactly one (the last) visited node, and that node's label is the last
entry of the comma-joined `Airship-Trace` header. -/
def c7Spec : Option (List String × Outcome × AirshipState) → Prop
  | none => True
  | some (visited, o, sF) =>
    sF.decisionTrace = visited ∧ visited ≠ [] ∧
    match o with
    | .response haltLbl resp =>
      visited.getLast? = some haltLbl ∧
      resp.airshipTrace = some (joinComma visited) ∧
      (splitCommaChars (joinComma visited).data).getLast? = some haltLbl.data
    | .panicked => True

/-! ## Fixtures for concrete witnesses -/

/-- `Resource` with every callback at its src/resource.rs default. -/
def resDefault : Resource := {}

/-- A plain `GET /` request with no headers. -/
def reqDefault : Request := {}

/-- A request carrying `Accept-Encoding: gzip`. -/
def reqAE : Request := { acceptEncoding := some "gzip" }

/-- A request carrying `If-Modified-Since: 5`. -/
def reqIms : Request := { ifModifiedSince := some 5 }

/-- A resource whose `last_modified` is 10. -/
def resLm : Resource := { lastModified := some 10 }

/-- A state whose response under construction carries a `Location` header. -/
def stLoc : AirshipState := { response := some { location := some "/new" } }

/-- A state whose response under construction has an empty body set. -/
def stEmptyBody : AirshipState := { response := some { body := some "" } }

/-- A `POST /x` request. -/
def reqPostX : Request := { method := .POST, path := "/x" }

/-- A `POST /x` request with `Content-Type: application/json`. -/
def reqPostJson : Request :=
  { method := .POST, path := "/x",
    contentType := some ⟨"application", "json"⟩ }

/-- A resource whose `process_post` returns `PostCreate(["a"])` and which
accepts `application/json`. -/
def resPostCreate : Resource :=
  { processPost := .PostCreate ["a"],
    contentTypesAccepted := [(⟨"application", "json"⟩, ())] }

/-- A routing trie with a literal prefix and one route variable, as the
builder would emit for `blog </> ::year::`. -/
def trieBlogYear : RouteTrie Nat :=
  to_trie [("/blog", .RVar), (base64Encode "/blogvar", .RouteMatch 7 ["year"])]

/-! ## Basic state lemmas -/

@[simp] theorem traceState_response (s : AirshipState) (t : String) :
    (traceState s t).response = s.response := rfl

@[simp] theorem traceState_matchedContentType (s : AirshipState) (t : String) :
    (traceState s t).matchedContentType = s.matchedContentType := rfl

@[simp] theorem traceState_requestTime (s : AirshipState) (t : String) :
    (traceState s t).requestTime = s.requestTime := rfl

@[simp] theorem traceState_decisionTrace (s : AirshipState) (t : String) :
    (traceState s t).decisionTrace = s.decisionTrace ++ [t] := rfl

@[simp] theorem is_response_empty_traceState (s : AirshipState) (t : String) :
    is_response_empty (traceState s t) = is_response_empty s := rfl

@[simp] theorem setResponseLocation_decisionTrace (s : AirshipState)
    (v : String) :
    (setResponseLocation s v).decisionTrace = s.decisionTrace := by
  unfold setResponseLocation
  split <;> rfl

@[simp] theorem setResponseContentType_decisionTrace (s : AirshipState)
    (v : Mime) :
    (setResponseContentType s v).decisionTrace = s.decisionTrace := by
  unfold setResponseContentType
  split <;> rfl

@[simp] theorem setResponseEtag_decisionTrace (s : AirshipState)
    (v : String) :
    (setResponseEtag s v).decisionTrace = s.decisionTrace := by
  unfold setResponseEtag
  split <;> rfl

@[simp] theorem setResponseLastModified_decisionTrace (s : AirshipState)
    (v : Nat) :
    (setResponseLastModified s v).decisionTrace = s.decisionTrace := by
  unfold setResponseLastModified
  split <;> rfl

@[simp] theorem setResponseBody_decisionTrace (s : AirshipState) (b : Body) :
    (setResponseBody s b).decisionTrace = s.decisionTrace := by
  unfold setResponseBody
  split <;> rfl

@[simp] theorem getResponse_decisionTrace (s : AirshipState) :
    (getResponse s).2.decisionTrace = s.decisionTrace := rfl

/-! ## Comma-join / comma-split lemmas -/

theorem string_data_append (a b : String) : (a ++ b).data = a.data ++ b.data := rfl

theorem splitOnCharList_ne_nil (sep : Char) (l : List Char) :
    splitOnCharList sep l ≠ [] := by
  cases l with
  | nil => simp [splitOnCharList]
  | cons c cs =>
    unfold splitOnCharList
    split
    · simp
    · split <;> simp

theorem splitOnCharList_no_sep {sep : Char} {w : List Char} (h : sep ∉ w) :
    splitOnCharList sep w = [w] := by
  induction w with
  | nil => rfl
  | cons c cs ih =>
    have hc : ¬ c = sep := fun hc => h (hc ▸ List.mem_cons_self c cs)
    have hcs : sep ∉ cs := fun hm => h (List.mem_cons_of_mem c hm)
    simp only [splitOnCharList, if_neg hc, ih hcs]

theorem splitOnCharList_append_sep {sep : Char} {w : List Char}
    (cs : List Char) (h : sep ∉ w) :
    splitOnCharList sep (w ++ sep :: cs) = w :: splitOnCharList sep cs := by
  induction w with
  | nil =>
    simp [splitOnCharList]
  | cons c wtl ih =>
    have hc : ¬ c = sep := fun hc => h (hc ▸ List.mem_cons_self c wtl)
    have hw : sep ∉ wtl := fun hm => h (List.mem_cons_of_mem c hm)
    simp only [List.cons_append, splitOnCharList, if_neg hc, List.append_eq,
      ih hw]

theorem comma_data : (",".data : List Char) = [','] := by decide

theorem getLast?_map_data (l : List String) :
    ((l.map String.data).getLast? : Option (List Char)) =
      l.getLast?.map String.data := by
  induction l with
  | nil => rfl
  | cons x t ih =>
    cases t with
    | nil => rfl
    | cons y tt =>
      rw [List.map_cons, List.map_cons, List.getLast?_cons_cons,
        List.getLast?_cons_cons, ← List.map_cons, ih]

theorem joinComma_data_cons (x : String) (l : List String) (h : l ≠ []) :
    (joinComma (x :: l)).data = x.data ++ ',' :: (joinComma l).data := by
  cases l with
  | nil => exact absurd rfl h
  | cons y t =>
    show (x ++ "," ++ joinComma (y :: t)).data = _
    rw [string_data_append, string_data_append, List.append_assoc, comma_data]
    rfl

theorem splitCommaChars_joinComma (l : List String) (hne : l ≠ [])
    (hcf : ∀ s ∈ l, ',' ∉ s.data) :
    splitCommaChars (joinComma l).data = l.map String.data := by
  induction l with
  | nil => exact absurd rfl hne
  | cons x t ih =>
    cases t with
    | nil =>
      show splitCommaChars (joinComma [x]).data = [x.data]
      exact splitOnCharList_no_sep (hcf x (List.mem_cons_self x []))
    | cons y tt =>
      rw [joinComma_data_cons x (y :: tt) (by simp)]
      unfold splitCommaChars
      rw [splitOnCharList_append_sep _ (hcf x (List.mem_cons_self x (y :: tt)))]
      have ht : splitCommaChars (joinComma (y :: tt)).data =
          (y :: tt).map String.data :=
        ih (by simp) (fun s hs => hcf s (List.mem_cons_of_mem x hs))
      unfold splitCommaChars at ht
      rw [ht]
      rfl

theorem labelOf_comma_free (n : Node) : ',' ∉ (labelOf n).data := by
  cases n <;> simp only [labelOf] <;> decide

/-! ## Every node execution preserves the trace discipline -/

theorem stepTraceOK_haltSR {s' s : AirshipState} (c : Nat)
    (h : s'.decisionTrace = s.decisionTrace) :
    stepTraceOK (haltSR s' c) s.decisionTrace := by
  simp [stepTraceOK, haltSR, haltResp, h]

theorem stepTraceOK_haltAllowSR {s' s : AirshipState} (c : Nat)
    (ms : List Method) (h : s'.decisionTrace = s.decisionTrace) :
    stepTraceOK (haltAllowSR s' c ms) s.decisionTrace := by
  simp [stepTraceOK, haltAllowSR, haltAllowResp, h]

theorem stepTraceOK_haltRespSR {s' s : AirshipState} (c : Nat)
    (h : s'.decisionTrace = s.decisionTrace) :
    stepTraceOK (haltRespSR s' c) s.decisionTrace := by
  simp [stepTraceOK, haltRespSR, haltWithResponse, getResponse, h]

theorem stepTraceOK_next {s' s : AirshipState} (n : Node)
    (h : s'.decisionTrace = s.decisionTrace) :
    stepTraceOK (.next n s') s.decisionTrace := h

theorem o18Finish_traceOK {r : Resource} {s' s : AirshipState}
    (h : s'.decisionTrace = s.decisionTrace) :
    stepTraceOK (o18Finish r s') s.decisionTrace := by
  unfold o18Finish
  apply stepTraceOK_haltRespSR
  split <;> split <;> simp [h]

theorem process_post_action_traceOK (r : Resource) (q : Request)
    (s : AirshipState) (pr : PostResponse) :
    stepTraceOK (process_post_action r q s pr) s.decisionTrace := by
  cases pr with
  | PostCreate segs =>
    simp only [process_post_action, create]
    cases hq : q.contentType.bind (map_content_media r.contentTypesAccepted)
    · exact stepTraceOK_haltSR _ (by simp)
    · exact stepTraceOK_next _ (by simp)
  | PostCreateRedirect segs =>
    simp only [process_post_action, create]
    cases hq : q.contentType.bind (map_content_media r.contentTypesAccepted)
    · exact stepTraceOK_haltSR _ (by simp)
    · exact stepTraceOK_haltSR _ (by simp)
  | PostProcess accepted =>
    simp only [process_post_action]
    cases hq : q.contentType.bind (map_content_media accepted)
    · exact stepTraceOK_haltSR _ (by simp)
    · exact stepTraceOK_next _ (by simp)
  | PostProcessRedirect accepted =>
    simp only [process_post_action]
    cases hq : q.contentType.bind (map_content_media accepted)
    · exact stepTraceOK_haltSR _ (by simp)
    · exact stepTraceOK_haltSR _ (by simp)

theorem stepCore_traceOK (r : Resource) (q : Request) (n : Node)
    (s : AirshipState) :
    stepTraceOK (stepCore r q n s) s.decisionTrace := by
  cases n <;>
    simp only [stepCore] <;>
    (repeat' split) <;>
    first
      | exact process_post_action_traceOK r q _ _
      | exact o18Finish_traceOK (by simp)
      | exact stepTraceOK_next _ (by simp)
      | exact stepTraceOK_haltSR _ (by simp)
      | exact stepTraceOK_haltAllowSR _ _ (by simp)
      | exact stepTraceOK_haltRespSR _ (by simp)
      | exact rfl

theorem step_traceOK (r : Resource) (q : Request) (n : Node)
    (s : AirshipState) :
    stepTraceOK (step r q n s) (s.decisionTrace ++ [labelOf n]) := by
  have h := stepCore_traceOK r q n (traceState s (labelOf n))
  simpa [step] using h

/-! ## The run invariant -/

theorem runV_traceInvariant (r : Resource) (q : Request) :
    ∀ (fuel : Nat) (n : Node) (s : AirshipState),
    traceInvariant (runV r q fuel n s) s.decisionTrace := by
  intro fuel
  induction fuel with
  | zero =>
    intro n s
    simp [runV, traceInvariant]
  | succ fuel ih =>
    intro n s
    have hstep := step_traceOK r q n s
    cases hres : step r q n s with
    | next n' s' =>
      rw [hres] at hstep
      have hs' : s'.decisionTrace = s.decisionTrace ++ [labelOf n] := hstep
      have hinv := ih n' s'
      simp only [runV, hres]
      cases hrv : runV r q fuel n' s' with
      | none => simp [traceInvariant]
      | some out =>
        obtain ⟨visited, o, sF⟩ := out
        rw [hrv] at hinv
        cases o with
        | response haltLbl resp =>
          simp only [traceInvariant] at hinv
          obtain ⟨h1, h2, h3, h4, h5⟩ := hinv
          simp only [Option.map_some, traceInvariant]
          refine ⟨?_, by simp, ?_, ?_, ?_⟩
          · rw [h1, hs', List.append_assoc, List.singleton_append]
          · intro l hl
            rcases List.mem_cons.1 hl with hl | hl
            · exact hl ▸ labelOf_comma_free n
            · exact h3 l hl
          · rw [show labelOf n :: visited = [labelOf n] ++ visited from rfl,
              List.getLast?_append_of_ne_nil _ h2, h4]
          · rw [h5, hs', List.append_assoc, List.singleton_append]
        | panicked =>
          simp only [traceInvariant] at hinv
          obtain ⟨h1, h2, h3, _⟩ := hinv
          simp only [Option.map_some, traceInvariant]
          refine ⟨?_, by simp, ?_, trivial⟩
          · rw [h1, hs', List.append_assoc, List.singleton_append]
          · intro l hl
            rcases List.mem_cons.1 hl with hl | hl
            · exact hl ▸ labelOf_comma_free n
            · exact h3 l hl
    | done resp sF =>
      rw [hres] at hstep
      obtain ⟨hsF, hair⟩ := hstep
      simp only [runV, hres, traceInvariant]
      refine ⟨hsF, by simp, ?_, rfl, hair⟩
      intro l hl
      rcases List.mem_cons.1 hl with hl | hl
      · exact hl ▸ labelOf_comma_free n
      · exact absurd hl (List.not_mem_nil l)
    | panicked sF =>
      rw [hres] at hstep
      simp only [runV, hres, traceInvariant]
      refine ⟨hstep, by simp, ?_, trivial⟩
      intro l hl
      rcases List.mem_cons.1 hl with hl | hl
      · exact hl ▸ labelOf_comma_free n
      · exact absurd hl (List.not_mem_nil l)

/-! ## Claim C1 -/

theorem runV_none_of_step_next (r : Resource) (q : Request) {n n' : Node}
    {s s' : AirshipState} (h : step r q n s = .next n' s')
    (ih : ∀ fuel, runV r q fuel n' s' = none) :
    ∀ fuel, runV r q fuel n s = none := by
  intro fuel
  cases fuel
  · rfl
  · simp [runV, h, ih]

/-- C1: the claim says the traversal from `b13` always terminates with
exactly one response, `f07` passing through to `g07` when an
`Accept-Encoding` header is present.  In the code `f07` tail-calls `f06`,
which re-inspects the same header: for every resource and every request
carrying `Accept-Encoding`, `f07` steps back to `f06` (not `g07`), the run
never terminates from `f06` whatever the fuel, and on the concrete default
resource with a `GET` carrying `Accept-Encoding: gzip` (which reaches
`f06`) the traversal started at `b13` never terminates either. -/
theorem c1_f07_loops_forever (r : Resource) (q : Request) (enc : String)
    (h : q.acceptEncoding = some enc) :
    (∀ s, step r q (.f07 enc) s = .next .f06 (traceState s "f07")) ∧
    (∀ (fuel : Nat) (s : AirshipState), runV r q fuel .f06 s = none) ∧
    (∀ (fuel : Nat) (s0 : AirshipState),
      runV resDefault reqAE fuel .b13 s0 = none) := by
  have hf06 : ∀ (r' : Resource) (q' : Request) (enc' : String),
      q'.acceptEncoding = some enc' →
      ∀ (fuel : Nat) (s : AirshipState), runV r' q' fuel .f06 s = none := by
    intro r' q' enc' h' fuel
    induction fuel using Nat.strong_induction_on with
    | _ fuel ih =>
      rcases fuel with _ | fuel2
      · intro s
        rfl
      · rcases fuel2 with _ | m
        · intro s
          simp [runV, step, stepCore, labelOf, h']
        · intro s
          simp [runV, step, stepCore, labelOf, h', ih m (by omega)]
  refine ⟨fun s => rfl, hf06 r q enc h, ?_⟩
  have base : ∀ (s : AirshipState) (fuel : Nat),
      runV resDefault reqAE fuel .f06 s = none :=
    fun s fuel => hf06 resDefault reqAE "gzip" rfl fuel s
  have hE05 : ∀ (s : AirshipState) (fuel : Nat),
      runV resDefault reqAE fuel .e05 s = none :=
    fun s => runV_none_of_step_next resDefault reqAE rfl (base _)
  have hD04 : ∀ (s : AirshipState) (fuel : Nat),
      runV resDefault reqAE fuel .d04 s = none :=
    fun s => runV_none_of_step_next resDefault reqAE rfl (hE05 _)
  have hC03 : ∀ (s : AirshipState) (fuel : Nat),
      runV resDefault reqAE fuel .c03 s = none :=
    fun s => runV_none_of_step_next resDefault reqAE rfl (hD04 _)
  have hB03 : ∀ (s : AirshipState) (fuel : Nat),
      runV resDefault reqAE fuel .b03 s = none :=
    fun s => runV_none_of_step_next resDefault reqAE rfl (hC03 _)
  have hB04 : ∀ (s : AirshipState) (fuel : Nat),
      runV resDefault reqAE fuel .b04 s = none :=
    fun s => runV_none_of_step_next resDefault reqAE rfl (hB03 _)
  have hB05 : ∀ (s : AirshipState) (fuel : Nat),
      runV resDefault reqAE fuel .b05 s = none :=
    fun s => runV_none_of_step_next resDefault reqAE rfl (hB04 _)
  have hB06 : ∀ (s : AirshipState) (fuel : Nat),
      runV resDefault reqAE fuel .b06 s = none :=
    fun s => runV_none_of_step_next resDefault reqAE rfl (hB05 _)
  have hB07 : ∀ (s : AirshipState) (fuel : Nat),
      runV resDefault reqAE fuel .b07 s = none :=
    fun s => runV_none_of_step_next resDefault reqAE rfl (hB06 _)
  have hB08 : ∀ (s : AirshipState) (fuel : Nat),
      runV resDefault reqAE fuel .b08 s = none :=
    fun s => runV_none_of_step_next resDefault reqAE rfl (hB07 _)
  have hB09 : ∀ (s : AirshipState) (fuel : Nat),
      runV resDefault reqAE fuel .b09 s = none :=
    fun s => runV_none_of_step_next resDefault reqAE rfl (hB08 _)
  have hB10 : ∀ (s : AirshipState) (fuel : Nat),
      runV resDefault reqAE fuel .b10 s = none :=
    fun s => runV_none_of_step_next resDefault reqAE rfl (hB09 _)
  have hB11 : ∀ (s : AirshipState) (fuel : Nat),
      runV resDefault reqAE fuel .b11 s = none :=
    fun s => runV_none_of_step_next resDefault reqAE rfl (hB10 _)
  have hB12 : ∀ (s : AirshipState) (fuel : Nat),
      runV resDefault reqAE fuel .b12 s = none :=
    fun s => runV_none_of_step_next resDefault reqAE rfl (hB11 _)
  intro fuel s0
  exact runV_none_of_step_next resDefault reqAE
    (show step resDefault reqAE .b13 s0 = .next .b12 (traceState s0 "b13")
      from rfl)
    (hB12 _) fuel

theorem c1_witness :
    reqAE.acceptEncoding = some "gzip" ∧
    step resDefault reqAE (.f07 "gzip") {} = .next .f06 (traceState {} "f07") ∧
    runV resDefault reqAE 5 .f06 {} = none ∧
    runV resDefault reqAE 100 .b13 {} = none := by
  refine ⟨rfl, ?_, ?_, ?_⟩
  · exact (c1_f07_loops_forever resDefault reqAE "gzip" rfl).1 {}
  · exact (c1_f07_loops_forever resDefault reqAE "gzip" rfl).2.1 5 {}
  · exact (c1_f07_loops_forever resDefault reqAE "gzip" rfl).2.2 100 {}

/-! ## Claim C2 -/

/-- C2: the claim (and the Webmachine diagram the module documents) says
`l17` continues to `m16` when `last_modified > If-Modified-Since` and halts
304 otherwise.  The code compares the other way around: it continues to
`m16` exactly when `If-Modified-Since > last_modified`, and halts 304 when
`last_modified > If-Modified-Since`. -/
theorem c2_l17_comparison_reversed (r : Resource) (q : Request)
    (s : AirshipState) (t1 t2 : Nat) (h1 : q.ifModifiedSince = some t1)
    (h2 : r.lastModified = some t2) :
    (t2 > t1 → step r q .l17 s = haltSR (traceState s "l17") 304) ∧
    (t1 > t2 → step r q .l17 s = .next .m16 (traceState s "l17")) := by
  constructor
  · intro hgt
    simp only [step, stepCore, labelOf, h1, h2]
    rw [if_neg (by omega)]
  · intro hgt
    simp only [step, stepCore, labelOf, h1, h2]
    rw [if_pos hgt]

theorem c2_witness :
    reqIms.ifModifiedSince = some 5 ∧ resLm.lastModified = some 10 ∧
    step resLm reqIms .l17 {} = haltSR (traceState {} "l17") 304 :=
  ⟨rfl, rfl, (c2_l17_comparison_reversed resLm reqIms {} 5 10 rfl rfl).1
    (by omega)⟩

/-! ## Claim C3 -/

/-- C3: the claim says `p11` halts 201 when the response under construction
has a `Location` header.  The code tests `req.headers().has::<Location>()`,
i.e. the request's headers: even when the response's `Location` is set
(hypotheses `hs`, `hl`, which the code never consults), a request without a
`Location` header makes `p11` continue to `o20`. -/
theorem c3_p11_checks_request_headers (r : Resource) (q : Request)
    (s : AirshipState) (resp : Resp) (loc : String) (hq : q.location = none)
    (_hs : s.response = some resp) (_hl : resp.location = some loc) :
    step r q .p11 s = .next .o20 (traceState s "p11") := by
  simp [step, stepCore, labelOf, hq]

theorem c3_witness :
    stLoc.response = some { location := some "/new" } ∧
    step resDefault reqDefault .p11 stLoc = .next .o20 (traceState stLoc "p11") :=
  ⟨rfl, c3_p11_checks_request_headers resDefault reqDefault stLoc
    { location := some "/new" } "/new" rfl rfl rfl⟩

/-! ## Claim C4 -/

/-- C4: the claim says the earlier registered template's `RouteMatch` wins a
merge.  In the code `insert_or_replace` calls
`merge_values(current, new)` and the `(RouteMatch, RouteMatch)` arm keeps
its second argument, so the later registration wins (shown on resources `1`
then `2`).  The `RouteMatch`/`RVar` promotions do keep the `RouteMatch`'s
resource, and an existing `Wildcard` wins, as claimed. -/
theorem c4_later_routematch_wins :
    merge_values (RouteLeaf.RouteMatch (1 : Nat) ["y"])
      (RouteLeaf.RouteMatch 2 ["z"]) = RouteLeaf.RouteMatch 2 ["z"] ∧
    insert_or_replace [("/a", RouteLeaf.RouteMatch (1 : Nat) ["y"])]
      ("/a", RouteLeaf.RouteMatch 2 ["z"]) =
      [("/a", RouteLeaf.RouteMatch 2 ["z"])] ∧
    RouteLeaf.RouteMatch (2 : Nat) ["z"] ≠ RouteLeaf.RouteMatch 1 ["y"] ∧
    merge_values (RouteLeaf.RouteMatch (1 : Nat) ["y"]) RouteLeaf.RVar =
      RouteLeaf.RouteMatchOrVar 1 ["y"] ∧
    merge_values RouteLeaf.RVar (RouteLeaf.RouteMatch (2 : Nat) ["z"]) =
      RouteLeaf.RouteMatchOrVar 2 ["z"] ∧
    merge_values (RouteLeaf.Wildcard (1 : Nat)) (RouteLeaf.RouteMatch 2 ["z"]) =
      RouteLeaf.Wildcard 1 := by
  refine ⟨rfl, by decide, by decide, rfl, rfl, rfl⟩

/-! ## Claim C5 -/

/-- C5: the claim says `o20` halts 201 when the response body is empty,
including the initial blank response with no body set.  On the initial
state (`AirshipState::new()`: a blank 200 response whose body is `None`)
`is_response_empty` is `false`, so `o20` continues to `o18` instead of
halting 201. -/
theorem c5_blank_response_goes_to_o18 :
    ({} : AirshipState).response = some {} ∧ ({} : Resp).body = none ∧
    is_response_empty {} = false ∧
    step resDefault reqDefault .o20 {} = .next .o18 (traceState {} "o20") :=
  ⟨rfl, rfl, rfl, rfl⟩

/-- C5 (amended): `o20` halts 201 exactly when the response is present and
has a body set that is empty; otherwise — including the blank response with
no body set — it continues to `o18`. -/
theorem c5_o20_empty_means_body_set_and_empty (r : Resource) (q : Request)
    (s : AirshipState) :
    (is_response_empty s = true →
      step r q .o20 s = haltSR (traceState s "o20") 201) ∧
    (is_response_empty s = false →
      step r q .o20 s = .next .o18 (traceState s "o20")) ∧
    (is_response_empty s = true ↔
      ∃ resp b, s.response = some resp ∧ resp.body = some b ∧
        b.isEmpty = true) := by
  refine ⟨?_, ?_, ?_⟩
  · intro h
    simp [step, stepCore, labelOf, h]
  · intro h
    simp [step, stepCore, labelOf, h]
  · unfold is_response_empty
    cases hr : s.response with
    | none => simp
    | some resp =>
      cases hb : resp.body with
      | none =>
        simp only [hb]
        constructor
        · intro h
          exact absurd h (by simp)
        · rintro ⟨resp', b, he, hb', _⟩
          rw [Option.some_inj.mp he] at hb
          rw [hb] at hb'
          exact absurd hb' (by simp)
      | some b =>
        simp only [hb]
        constructor
        · intro h
          exact ⟨resp, b, rfl, hb, h⟩
        · rintro ⟨resp', b', he, hb', hbe⟩
          rw [← Option.some_inj.mp he] at hb'
          rw [hb] at hb'
          rw [Option.some_inj.mp hb']
          exact hbe

theorem c5_witness :
    is_response_empty stEmptyBody = true ∧
    step resDefault reqDefault .o20 stEmptyBody =
      haltSR (traceState stEmptyBody "o20") 201 :=
  ⟨rfl, (c5_o20_empty_means_body_set_and_empty resDefault reqDefault
    stEmptyBody).1 rfl⟩

/-! ## Claim C6 -/

theorem mime_eq_mk_iff (m : Mime) (t s2 : String) :
    m = ⟨t, s2⟩ ↔ m.type_ = t ∧ m.subtype = s2 := by
  cases m
  simp [Mime.mk.injEq]

theorem map_accept_media_inner_eq_spec (a : QualityItem)
    (l : List (Mime × (Request → Body)))
    (st : Option (Mime × (Request → Body)) × Nat) :
    map_accept_media_inner a l st = specScanProvided a l st := by
  induction l generalizing st with
  | nil => rfl
  | cons pf rest ih =>
    obtain ⟨best, bq⟩ := st
    obtain ⟨ct, f⟩ := pf
    have hcond :
        ((a.item = ⟨"*", "*"⟩ ∧ a.quality > bq) ∨
          (a.item.type_ = ct.type_ ∧ a.quality > bq ∧
            (a.item.subtype = ct.subtype ∨ a.item.subtype = "*"))) ↔
        acceptCandidate a ct bq := by
      unfold acceptCandidate
      rw [mime_eq_mk_iff]
      constructor
      · rintro (⟨hm, hq⟩ | ⟨ht, hq, hsub⟩)
        · exact ⟨Or.inl hm, hq⟩
        · exact ⟨Or.inr ⟨ht, hsub⟩, hq⟩
      · rintro ⟨hm | ⟨ht, hsub⟩, hq⟩
        · exact Or.inl ⟨hm, hq⟩
        · exact Or.inr ⟨ht, hq, hsub⟩
    simp only [map_accept_media_inner, specScanProvided, List.foldl_cons]
    by_cases hc : acceptCandidate a ct bq
    · rw [if_pos (hcond.mpr hc), if_pos hc, ih]
      rfl
    · rw [if_neg (fun hx => hc (hcond.mp hx)), if_neg hc, ih]
      rfl

theorem map_accept_media_aux_eq_spec
    (provided : List (Mime × (Request → Body))) :
    ∀ (accp : List QualityItem)
      (st : Option (Mime × (Request → Body)) × Nat),
    map_accept_media_aux accp provided st =
      specAcceptSelectAux accp provided st := by
  intro accp
  induction accp with
  | nil =>
    intro st
    obtain ⟨b, bq⟩ := st
    rfl
  | cons a rest ih =>
    intro st
    obtain ⟨b, bq⟩ := st
    simp only [map_accept_media_aux, specAcceptSelectAux]
    by_cases h : a.quality = 0
    · rw [if_pos h, if_pos h]
    · rw [if_neg h, if_neg h, map_accept_media_inner_eq_spec, ih]

/-- C6: the code's `map_accept_media` computes exactly the matcher the spec
describes: scan Accept items in declaration order, stop at the first item
with quality 0, take a provided entry as a candidate exactly when its range
is `*/*`, or its type matches and its subtype matches or is `*`, and its
quality is strictly greater than the best seen so far; `none` when no
candidate exists. -/
theorem c6_accept_matcher_follows_spec
    (provided : List (Mime × (Request → Body)))
    (accept : List QualityItem) :
    map_accept_media provided accept = specAcceptSelect provided accept :=
  map_accept_media_aux_eq_spec provided accept (none, 0)

/-! ## Claim C7 -/

/-- C7: on a traversal that terminates (started at `b13` on an empty
trace), the final trace lists exactly the visited node labels in visitation
order (so it is append-only), exactly one terminal node executes — the last
visited — and its label is the last entry of the comma-joined
`Airship-Trace` header of the response. -/
theorem c7_trace_lists_visited_and_halting_node (r : Resource) (q : Request)
    (fuel : Nat) (s0 : AirshipState) (h0 : s0.decisionTrace = []) :
    c7Spec (runV r q fuel .b13 s0) := by
  have hinv := runV_traceInvariant r q fuel .b13 s0
  rw [h0] at hinv
  cases hrv : runV r q fuel .b13 s0 with
  | none => simp [c7Spec]
  | some out =>
    obtain ⟨visited, o, sF⟩ := out
    rw [hrv] at hinv
    cases o with
    | panicked =>
      simp only [traceInvariant] at hinv
      obtain ⟨h1, h2, _, _⟩ := hinv
      simp only [c7Spec]
      exact ⟨by simpa using h1, h2, trivial⟩
    | response haltLbl resp =>
      simp only [traceInvariant] at hinv
      obtain ⟨h1, h2, h3, h4, h5⟩ := hinv
      simp only [c7Spec]
      refine ⟨by simpa using h1, h2, h4, by simpa using h5, ?_⟩
      rw [splitCommaChars_joinComma visited h2 h3, getLast?_map_data, h4]
      rfl

theorem c7_witness :
    ({} : AirshipState).decisionTrace = [] ∧
    c7Spec (runV resDefault reqDefault 30 .b13 {}) :=
  ⟨rfl, c7_trace_lists_visited_and_halting_node resDefault reqDefault 30 {}
    rfl⟩

/-! ## Claim C8 -/

/-- C8: the claim's formula `Location = request_path + "," + segments.join(",")`
does not match the code: `append_request_path` intersperses `","` between
the segments only, with no separator between the request path and the first
segment — on path `/x` and segments `["a", "b"]` the code produces
`/xa,b`, not `/x,a,b`. -/
theorem c8_location_has_no_comma_before_segments :
    append_request_path reqPostX ["a", "b"] = "/xa,b" ∧
    append_request_path reqPostX ["a", "b"] ≠
      reqPostX.path ++ "," ++ joinComma ["a", "b"] := by
  constructor
  · decide
  · decide

/-- C8 (amended): at `n11` with `process_post` returning
`PostCreate(segments)`, the engine sets the response `Location` header to
`request_path ++ segments.join(",")` (no separator in between), then
negotiates `content_types_accepted` against the request's `Content-Type`,
running the matching action and continuing to `p11`, or halting 415 when no
entry matches. -/
theorem c8_n11_postcreate_amended (r : Resource) (q : Request)
    (s : AirshipState) (segs : List String)
    (h : r.processPost = .PostCreate segs) :
    step r q .n11 s =
      (match q.contentType.bind (map_content_media r.contentTypesAccepted) with
      | some _ => StepResult.next .p11
          (setResponseLocation (traceState s "n11") (append_request_path q segs))
      | none => haltSR
          (setResponseLocation (traceState s "n11")
            (append_request_path q segs)) 415) := by
  simp only [step, stepCore, labelOf, h, process_post_action, create]
  cases hq : q.contentType.bind (map_content_media r.contentTypesAccepted) <;>
    simp [hq]

theorem c8_witness :
    resPostCreate.processPost = PostResponse.PostCreate ["a"] ∧
    step resPostCreate reqPostJson .n11 {} =
      .next .p11 (setResponseLocation (traceState {} "n11") "/xa") := by
  refine ⟨rfl, ?_⟩
  have h := c8_n11_postcreate_amended resPostCreate reqPostJson {} ["a"] rfl
  exact h.trans rfl

/-! ## Claim C9 -/

theorem o18Finish_not_panicked (r : Resource) (s : AirshipState) :
    ¬ isPanicked (o18Finish r s) := by
  unfold o18Finish haltRespSR
  split <;> split <;> exact fun h => h

/-- C9: under the spec's invariant that `content_types_provided` is
non-empty, `o18`'s content-type selection for a GET or HEAD request is
total: the selection yields an entry (the matched content type, or the
first provided entry when none was matched) and the `unwrap` failure branch
is unreachable — the step never panics. -/
theorem c9_o18_selection_total (r : Resource) (q : Request)
    (s : AirshipState) (hp : r.contentTypesProvided ≠ [])
    (hm : q.method = .GET ∨ q.method = .HEAD)
    (hmc : r.multipleChoices = false) :
    (∃ ctf, o18Select s.matchedContentType r.contentTypesProvided = some ctf ∧
      (s.matchedContentType = none →
        r.contentTypesProvided.head? = some ctf)) ∧
    ¬ isPanicked (step r q .o18 s) := by
  have hsel : ∃ ctf,
      o18Select s.matchedContentType r.contentTypesProvided = some ctf ∧
      (s.matchedContentType = none →
        r.contentTypesProvided.head? = some ctf) := by
    cases hmct : s.matchedContentType with
    | some ctf => exact ⟨ctf, rfl, fun hcontra => by simp at hcontra⟩
    | none =>
      cases hl : r.contentTypesProvided with
      | nil => exact absurd hl hp
      | cons a tail => exact ⟨a, rfl, fun _ => rfl⟩
  refine ⟨hsel, ?_⟩
  obtain ⟨ctf, hc, _⟩ := hsel
  intro hpan
  rcases hm with hm | hm <;>
    simp only [step, stepCore, labelOf, hm, hmc, if_false,
      traceState_matchedContentType, hc, Bool.false_eq_true] at hpan <;>
    exact o18Finish_not_panicked r _ hpan

theorem c9_witness :
    (∃ ctf, o18Select ({} : AirshipState).matchedContentType
        resDefault.contentTypesProvided = some ctf ∧
      (({} : AirshipState).matchedContentType = none →
        resDefault.contentTypesProvided.head? = some ctf)) ∧
    ¬ isPanicked (step resDefault reqDefault .o18 {}) :=
  c9_o18_selection_total resDefault reqDefault {} (by simp [resDefault])
    (Or.inl rfl) rfl

/-! ## Claim C10 -/

/-- C10: routing lookup is deterministic and idempotent: the trie is taken
by shared reference and `route` is a pure function of the trie and the
path, so a successful lookup repeated on the same trie and path returns the
identical resource, parameter map and dispatch path. -/
theorem c10_route_deterministic {α : Type} (fuel : Nat) (t : RouteTrie α)
    (p : String) (x : α × (List (String × String) × List String))
    (h : route fuel t p = some x) :
    route fuel t p = some x ∧
    ∀ y, route fuel t p = some y → y = x := by
  refine ⟨h, ?_⟩
  intro y hy
  rw [h] at hy
  exact (Option.some_inj.mp hy).symm

theorem c10_witness :
    route 10 trieBlogYear "/blog/2024" =
      some (7, ([("year", "2024")], ["L2Jsb2d2YXI="])) ∧
    ∀ y, route 10 trieBlogYear "/blog/2024" = some y →
      y = (7, ([("year", "2024")], ["L2Jsb2d2YXI="])) :=
  c10_route_deterministic 10 trieBlogYear "/blog/2024" _ (by decide)

end Airship
